import Mathlib

/-!
Shallow embedding of `alluka/_types.py`, the descriptor/resolution core of
the Alluka dependency-injection library, together with proofs of the
specification claims about it.

The embedding keeps the source's names: `InjectedCallback`, `InjectedType`
and `InjectedDescriptor` with their `__slots__` fields, `resolve` and
`resolve_async`, and the two narrow collaborator contracts (`Context` with
`get_type_dependency` and `injection_client`, `Client` with
`execute_with_ctx` and `execute_with_ctx_async`).  Raised exceptions are
modelled with `Except`; the `UNDEFINED` sentinel of `alluka.abc` with the
`UndefinedOr` sum, mirroring `UndefinedOr = typing.Union[abc.Undefined, _T]`.
-/

namespace Alluka

/-- Embeds `UndefinedOr = typing.Union[abc.Undefined, _T]`: either the
distinguished `UNDEFINED` sentinel of `alluka.abc` (a singleton distinct
from every legitimate value, including a `None`-like one) or a value. -/
inductive UndefinedOr (V : Type) where
  | undefined
  | value (v : V)
  deriving DecidableEq, Repr

/-- Embeds the errors of `alluka.errors` that this core raises or lets
propagate: `MissingDependencyError` (with its message and its payload, the
human-readable representation of the requested type) and `AsyncOnlyError`. -/
inductive AllukaError where
  | missingDependency (message : String) (payload : String)
  | asyncOnly (message : String)
  deriving DecidableEq, Repr

variable {Ctx Ty K V : Type}

/-- Embeds `alluka.abc.Client` as consumed by this core: the blocking and
suspending execution capabilities.  `Ctx` is the opaque context handle the
caller passes back in, `K` the callback type, `V` the value type; a raised
`AsyncOnlyError` or `MissingDependencyError` is an `Except.error`. -/
structure Client (Ctx K V : Type) where
  execute_with_ctx : Ctx → K → Except AllukaError V
  execute_with_ctx_async : Ctx → K → Except AllukaError V

/-- Embeds `alluka.abc.Context` as consumed by this core:
`get_type_dependency` returns a value or the `UNDEFINED` sentinel, and
`injection_client` exposes the execution capabilities.  The `self` field is
the handle this context passes to its client (in the source, the context
object itself, as in `ctx.injection_client.execute_with_ctx(ctx, ...)`). -/
structure Context (Ctx Ty K V : Type) where
  self : Ctx
  get_type_dependency : Ty → UndefinedOr V
  injection_client : Client Ctx K V

/-- Embeds `InjectedCallback` (`__slots__ = ("callback",)`). -/
structure InjectedCallback (K : Type) where
  callback : K

/-- Embeds `InjectedCallback.resolve`:
`return ctx.injection_client.execute_with_ctx(ctx, self.callback)`. -/
def InjectedCallback.resolve (c : InjectedCallback K) (ctx : Context Ctx Ty K V) :
    Except AllukaError V :=
  ctx.injection_client.execute_with_ctx ctx.self c.callback

/-- Embeds `InjectedCallback.resolve_async`:
`return ctx.injection_client.execute_with_ctx_async(ctx, self.callback)`. -/
def InjectedCallback.resolve_async (c : InjectedCallback K) (ctx : Context Ctx Ty K V) :
    Except AllukaError V :=
  ctx.injection_client.execute_with_ctx_async ctx.self c.callback

/-- Embeds `InjectedType` (`__slots__ = ("default", "repr_type", "types")`).
`repr_type` is the human-readable representation of the requested type(s),
`types` the ordered candidate sequence, `default` the optional default. -/
structure InjectedType (Ty V : Type) where
  default : UndefinedOr V
  repr_type : String
  types : List Ty

/-- Embeds `InjectedType.__init__(repr_type, types, *, default=UNDEFINED)`:
the three fields are stored as given, with no validation of `types`. -/
def InjectedType.init (repr_type : String) (types : List Ty) (default : UndefinedOr V) :
    InjectedType Ty V :=
  ⟨default, repr_type, types⟩

/-- The `for cls in self.types` loop of `InjectedType.resolve`: the first
`ctx.get_type_dependency` result that is not the `UNDEFINED` sentinel. -/
def firstDefined (lookup : Ty → UndefinedOr V) : List Ty → Option V
  | [] => none
  | cls :: rest =>
    match lookup cls with
    | UndefinedOr.value result => some result
    | UndefinedOr.undefined => firstDefined lookup rest

/-- The message of the `MissingDependencyError` raised by
`InjectedType.resolve`:
`f"Couldn\x27t resolve injected type(s) {self.repr_type} to actual value"`. -/
def missingMessage (repr_type : String) : String :=
  "Couldn\x27t resolve injected type(s) " ++ repr_type ++ " to actual value"

/-- Embeds `InjectedType.resolve`: try each candidate type in declaration
order through `ctx.get_type_dependency` and return the first result that is
not `UNDEFINED`; otherwise return the default when it is not `UNDEFINED`;
otherwise raise `MissingDependencyError` with `repr_type` as payload. -/
def InjectedType.resolve (d : InjectedType Ty V) (ctx : Context Ctx Ty K V) :
    Except AllukaError V :=
  match firstDefined ctx.get_type_dependency d.types with
  | some result => Except.ok result
  | none =>
    match d.default with
    | UndefinedOr.value v => Except.ok v
    | UndefinedOr.undefined =>
      Except.error (AllukaError.missingDependency (missingMessage d.repr_type) d.repr_type)

/-- Embeds `InjectedDescriptor` (`__slots__ = ("callback", "type")`). -/
structure InjectedDescriptor (K Ty : Type) where
  callback : Option K
  type : Option Ty

/-- Embeds `InjectedDescriptor.__init__(*, callback=None, type=None)` with
its two `ValueError` checks; a raised `ValueError` is an `Except.error`
carrying the source's message. -/
def InjectedDescriptor.init (callback : Option K) (type : Option Ty) :
    Except String (InjectedDescriptor K Ty) :=
  match callback, type with
  | none, none => Except.error "Must specify one of `callback` or `type`"
  | some _, some _ => Except.error "Only one of `callback` or `type` can be specified"
  | _, _ => Except.ok ⟨callback, type⟩

/-- Modelled from the spec: the shape of a declared type at descriptor
construction time — a plain type, or a union of a literal union form with
its ordered member list.  The construction-time union expansion code is not
part of this core's source file. -/
inductive DeclaredType (Ty : Type) where
  | plain (t : Ty)
  | union (literal : Ty) (members : List Ty)

/-- Modelled from the spec: the construction-time expansion of a declared
type into the candidate sequence of the type variant.  The expansion code
itself lies outside this core's source; its behaviour is fixed by the
source at hand — the comment in `InjectedType.resolve` ("we check types
within a union after the literal type") and the `InjectedDescriptor.__init__`
docstring ("each type in the union will be tried separately after the litarl
union type is tried") — matching the spec's data model ("a union is
flattened into a sequence, literal/union type tried first then members").
A union therefore expands to the literal union form followed by its members
in declaration order; a plain type expands to itself alone. -/
def expandDeclared : DeclaredType Ty → List Ty
  | DeclaredType.plain t => [t]
  | DeclaredType.union literal members => literal :: members

/-- The type-variant descriptor built from a declared type. -/
def injectedTypeOfDeclared (repr_type : String) (dt : DeclaredType Ty)
    (default : UndefinedOr V) : InjectedType Ty V :=
  InjectedType.init repr_type (expandDeclared dt) default

/-! ### Helper lemmas about the candidate-scan loop -/

theorem firstDefined_append_undefined (lookup : Ty → UndefinedOr V) (pre ts : List Ty)
    (h : ∀ u ∈ pre, lookup u = UndefinedOr.undefined) :
    firstDefined lookup (pre ++ ts) = firstDefined lookup ts := by
  induction pre with
  | nil => rfl
  | cons p pre ih =>
    have hp : lookup p = UndefinedOr.undefined := h p (List.mem_cons_self p pre)
    have step : firstDefined lookup ((p :: pre) ++ ts) = firstDefined lookup (pre ++ ts) := by
      simp [firstDefined, hp]
    rw [step]
    exact ih fun u hu => h u (List.mem_cons_of_mem p hu)

theorem firstDefined_eq_none_iff (lookup : Ty → UndefinedOr V) (ts : List Ty) :
    firstDefined lookup ts = none ↔ ∀ t ∈ ts, lookup t = UndefinedOr.undefined := by
  induction ts with
  | nil => simp [firstDefined]
  | cons t rest ih =>
    cases h : lookup t with
    | undefined => simp [firstDefined, h, ih]
    | value v => simp [firstDefined, h]

theorem firstDefined_some_mem (lookup : Ty → UndefinedOr V) (ts : List Ty) (v : V)
    (h : firstDefined lookup ts = some v) :
    ∃ t ∈ ts, lookup t = UndefinedOr.value v := by
  induction ts with
  | nil => simp [firstDefined] at h
  | cons t rest ih =>
    cases hl : lookup t with
    | value w =>
      have hw : some w = some v := by simpa [firstDefined, hl] using h
      exact ⟨t, List.mem_cons_self t rest, by rw [hl, Option.some_inj.mp hw]⟩
    | undefined =>
      have h' : firstDefined lookup rest = some v := by simpa [firstDefined, hl] using h
      obtain ⟨u, hu, huv⟩ := ih h'
      exact ⟨u, List.mem_cons_of_mem t hu, huv⟩

/-! ### Concrete contexts and descriptors used by the witnesses -/

/-- A trivial client whose execution capabilities both return `0`. -/
def trivialClient : Client Unit Unit Nat :=
  ⟨fun _ _ => Except.ok 0, fun _ _ => Except.ok 0⟩

/-- A context binding type `0` to `10` and type `1` to `20`. -/
def ctxBoth : Context Unit Nat Unit Nat :=
  ⟨(), fun t => if t = 0 then UndefinedOr.value 10
    else if t = 1 then UndefinedOr.value 20 else UndefinedOr.undefined, trivialClient⟩

/-- A context binding only type `1`, to `20`. -/
def ctxOnlyB : Context Unit Nat Unit Nat :=
  ⟨(), fun t => if t = 1 then UndefinedOr.value 20 else UndefinedOr.undefined, trivialClient⟩

/-- A context with no type bindings at all. -/
def ctxEmpty : Context Unit Nat Unit Nat :=
  ⟨(), fun _ => UndefinedOr.undefined, trivialClient⟩

/-- A type-variant descriptor with candidates `[0, 1]` and no default. -/
def descAB : InjectedType Nat Nat :=
  InjectedType.init "A | B" [0, 1] UndefinedOr.undefined

/-- A type-variant descriptor with the single candidate `5` and no default. -/
def descNoDefault : InjectedType Nat Nat :=
  InjectedType.init "A" [5] UndefinedOr.undefined

/-! ### Claim theorems -/

/-- Claim C1: `InjectedType.resolve` queries the context's type lookup for
each candidate type in declaration order and returns the value of the first
candidate whose lookup is not the `UNDEFINED` sentinel: whenever the
candidate sequence splits as `pre ++ t :: rest` with every candidate in
`pre` looking up to the sentinel and `t` looking up to a value `v`,
resolution returns `v`. -/
theorem resolve_first_defined_wins (d : InjectedType Ty V) (ctx : Context Ctx Ty K V)
    (pre : List Ty) (t : Ty) (rest : List Ty) (v : V)
    (hsplit : d.types = pre ++ t :: rest)
    (hpre : ∀ u ∈ pre, ctx.get_type_dependency u = UndefinedOr.undefined)
    (ht : ctx.get_type_dependency t = UndefinedOr.value v) :
    d.resolve ctx = Except.ok v := by
  unfold InjectedType.resolve
  rw [hsplit, firstDefined_append_undefined _ _ _ hpre]
  simp [firstDefined, ht]

/-- Claim C1 witness: with candidates `[A, B]` (here `A` is `0`, `B` is `1`)
and both bound, resolution returns the value bound to `A`; with only `B`
bound it skips the undefined `A` and returns the value bound to `B`. -/
theorem resolve_first_defined_wins_witness :
    descAB.resolve ctxBoth = Except.ok 10 ∧ descAB.resolve ctxOnlyB = Except.ok 20 :=
  ⟨resolve_first_defined_wins descAB ctxBoth [] 0 [1] 10 rfl (by decide) rfl,
   resolve_first_defined_wins descAB ctxOnlyB [0] 1 [] 20 rfl (by decide) rfl⟩

/-- Claim C2: resolution raises exactly when the descriptor has no default
and every candidate's lookup is the `UNDEFINED` sentinel, and the raised
error is the missing-dependency error whose payload is the descriptor's
human-readable `repr_type`. -/
theorem resolve_missing_dependency (d : InjectedType Ty V) (ctx : Context Ctx Ty K V) :
    (∀ e, d.resolve ctx = Except.error e →
      e = AllukaError.missingDependency (missingMessage d.repr_type) d.repr_type ∧
      d.default = UndefinedOr.undefined ∧
      ∀ t ∈ d.types, ctx.get_type_dependency t = UndefinedOr.undefined) ∧
    ((d.default = UndefinedOr.undefined ∧
      ∀ t ∈ d.types, ctx.get_type_dependency t = UndefinedOr.undefined) →
      d.resolve ctx = Except.error
        (AllukaError.missingDependency (missingMessage d.repr_type) d.repr_type)) := by
  constructor
  · intro e he
    unfold InjectedType.resolve at he
    cases hf : firstDefined ctx.get_type_dependency d.types with
    | some r => rw [hf] at he; exact absurd he (by simp)
    | none =>
      rw [hf] at he
      cases hd : d.default with
      | value w => rw [hd] at he; exact absurd he (by simp)
      | undefined =>
        rw [hd] at he
        have he' : AllukaError.missingDependency (missingMessage d.repr_type) d.repr_type = e := by
          simpa using he
        exact ⟨he'.symm, rfl, (firstDefined_eq_none_iff _ _).mp hf⟩
  · rintro ⟨hd, hall⟩
    have hf := (firstDefined_eq_none_iff ctx.get_type_dependency d.types).mpr hall
    simp [InjectedType.resolve, hf, hd]

/-- Claim C2 witness: the descriptor with candidate `[5]`, no default,
resolved against the empty context, raises the missing-dependency error
carrying its `repr_type`. -/
theorem resolve_missing_dependency_witness :
    descNoDefault.default = UndefinedOr.undefined ∧
    descNoDefault.resolve ctxEmpty =
      Except.error (AllukaError.missingDependency (missingMessage "A") "A") :=
  ⟨rfl, (resolve_missing_dependency descNoDefault ctxEmpty).2 ⟨rfl, by decide⟩⟩

/-- A context over value type `Option Nat` with no type bindings. -/
def ctxEmptyOpt : Context Unit Nat Unit (Option Nat) :=
  ⟨(), fun _ => UndefinedOr.undefined, ⟨fun _ _ => Except.ok none, fun _ _ => Except.ok none⟩⟩

/-- A type-variant descriptor whose default is a `None`-like value. -/
def descDefaultNone : InjectedType Nat (Option Nat) :=
  InjectedType.init "A" [5] (UndefinedOr.value none)

/-- Claim C3: with a default that is not the `UNDEFINED` sentinel (a
`None`-like default included) and every candidate lookup returning the
sentinel, resolution returns the default without raising. -/
theorem resolve_returns_default (d : InjectedType Ty V) (ctx : Context Ctx Ty K V) (dv : V)
    (hd : d.default = UndefinedOr.value dv)
    (hall : ∀ t ∈ d.types, ctx.get_type_dependency t = UndefinedOr.undefined) :
    d.resolve ctx = Except.ok dv := by
  have hf := (firstDefined_eq_none_iff ctx.get_type_dependency d.types).mpr hall
  simp [InjectedType.resolve, hf, hd]

/-- Claim C3 witness: a descriptor whose default is the `None`-like value
(`none`), resolved against a context binding nothing, returns that default. -/
theorem resolve_returns_default_witness :
    descDefaultNone.default = UndefinedOr.value none ∧
    descDefaultNone.resolve ctxEmptyOpt = Except.ok none :=
  ⟨rfl, resolve_returns_default descDefaultNone ctxEmptyOpt none rfl (by decide)⟩

/-- Claim C4: constructing an `InjectedDescriptor` fails exactly when zero
or both of callback and type are supplied — both omitted fails with the
"must specify" message, both supplied with the "only one" message — and
supplying exactly one succeeds. -/
theorem descriptor_init_exactly_one (cb : K) (ty : Ty) :
    (InjectedDescriptor.init none none : Except String (InjectedDescriptor K Ty)) =
      Except.error "Must specify one of `callback` or `type`" ∧
    InjectedDescriptor.init (some cb) (some ty) =
      Except.error "Only one of `callback` or `type` can be specified" ∧
    InjectedDescriptor.init (some cb) (none : Option Ty) = Except.ok ⟨some cb, none⟩ ∧
    InjectedDescriptor.init (none : Option K) (some ty) = Except.ok ⟨none, some ty⟩ :=
  ⟨rfl, rfl, rfl, rfl⟩

/-- A context binding only the literal union type `0`, to `42`. -/
def ctxUnionOnly : Context Unit Nat Unit Nat :=
  ⟨(), fun t => if t = 0 then UndefinedOr.value 42 else UndefinedOr.undefined, trivialClient⟩

/-- Claim C5 counterexample: expanding the union whose literal form is `0`
and whose members are `[1, 2]` does not yield only the members `[1, 2]` —
the literal union form is itself a candidate, and a binding registered for
the literal union type alone is found by resolution instead of failing. -/
theorem union_expansion_counterexample :
    expandDeclared (DeclaredType.union 0 [1, 2]) ≠ [1, 2] ∧
    (injectedTypeOfDeclared "U" (DeclaredType.union 0 [1, 2])
      (UndefinedOr.undefined : UndefinedOr Nat)).resolve ctxUnionOnly = Except.ok 42 :=
  ⟨by decide, rfl⟩

/-- Claim C5 amended: a declared union expands at construction to the
literal union form followed by its member types in declaration order, so
the literal form IS included as the first candidate: when the context binds
the literal union type itself, resolution returns that binding before
trying any member. -/
theorem union_expansion_amended (u : Ty) (ms : List Ty) (r : String)
    (dflt : UndefinedOr V) (ctx : Context Ctx Ty K V) (v : V)
    (hu : ctx.get_type_dependency u = UndefinedOr.value v) :
    expandDeclared (DeclaredType.union u ms) = u :: ms ∧
    (injectedTypeOfDeclared r (DeclaredType.union u ms) dflt).resolve ctx = Except.ok v := by
  refine ⟨rfl, ?_⟩
  simp [injectedTypeOfDeclared, InjectedType.init, InjectedType.resolve, expandDeclared,
    firstDefined, hu]

/-- Claim C5 amended witness: the union with literal form `0` and members
`[1, 2]` expands to `[0, 1, 2]`, and with `0` bound to `42` resolution
returns `42`. -/
theorem union_expansion_amended_witness :
    ctxUnionOnly.get_type_dependency 0 = UndefinedOr.value 42 ∧
    expandDeclared (DeclaredType.union 0 [1, 2]) = 0 :: [1, 2] ∧
    (injectedTypeOfDeclared "U" (DeclaredType.union 0 [1, 2])
      (UndefinedOr.undefined : UndefinedOr Nat)).resolve ctxUnionOnly = Except.ok 42 :=
  ⟨rfl,
   (union_expansion_amended 0 [1, 2] "U" (UndefinedOr.undefined : UndefinedOr Nat)
     ctxUnionOnly 42 rfl).1,
   (union_expansion_amended 0 [1, 2] "U" (UndefinedOr.undefined : UndefinedOr Nat)
     ctxUnionOnly 42 rfl).2⟩

/-- Claim C6: `InjectedCallback.resolve` returns exactly the result of the
context client's blocking execution capability applied to (context, stored
callback), `resolve_async` exactly that of the suspending capability, and
any failure returned by either delegate propagates to the caller unchanged,
with no wrapping or translation by this layer. -/
theorem callback_resolve_delegates (c : InjectedCallback K) (ctx : Context Ctx Ty K V) :
    c.resolve ctx = ctx.injection_client.execute_with_ctx ctx.self c.callback ∧
    c.resolve_async ctx = ctx.injection_client.execute_with_ctx_async ctx.self c.callback ∧
    (∀ e, ctx.injection_client.execute_with_ctx ctx.self c.callback = Except.error e →
      c.resolve ctx = Except.error e) ∧
    (∀ e, ctx.injection_client.execute_with_ctx_async ctx.self c.callback = Except.error e →
      c.resolve_async ctx = Except.error e) :=
  ⟨rfl, rfl, fun _ h => h, fun _ h => h⟩

/-- A context whose blocking capability fails with an async-only error and
whose suspending capability fails with a missing-dependency error. -/
def ctxFailingClient : Context Unit Nat Unit Nat :=
  ⟨(), fun _ => UndefinedOr.undefined,
   ⟨fun _ _ => Except.error (AllukaError.asyncOnly "this callback is async only"),
    fun _ _ => Except.error (AllukaError.missingDependency "missing" "T")⟩⟩

/-- Claim C6 witness: against a client whose delegates fail, `resolve` and
`resolve_async` surface exactly the delegate's errors, unchanged. -/
theorem callback_resolve_delegates_witness :
    (InjectedCallback.mk () : InjectedCallback Unit).resolve ctxFailingClient =
      Except.error (AllukaError.asyncOnly "this callback is async only") ∧
    (InjectedCallback.mk () : InjectedCallback Unit).resolve_async ctxFailingClient =
      Except.error (AllukaError.missingDependency "missing" "T") :=
  ⟨(callback_resolve_delegates (InjectedCallback.mk ()) ctxFailingClient).2.2.1
     (AllukaError.asyncOnly "this callback is async only") rfl,
   (callback_resolve_delegates (InjectedCallback.mk ()) ctxFailingClient).2.2.2
     (AllukaError.missingDependency "missing" "T") rfl⟩

/-- Claim C7: resolution never returns the `UNDEFINED` sentinel to the
caller: every successful result is either the value of some candidate's
non-sentinel lookup or the descriptor's non-sentinel default. -/
theorem resolve_no_sentinel (d : InjectedType Ty V) (ctx : Context Ctx Ty K V) (v : V)
    (h : d.resolve ctx = Except.ok v) :
    (∃ t ∈ d.types, ctx.get_type_dependency t = UndefinedOr.value v) ∨
      d.default = UndefinedOr.value v := by
  unfold InjectedType.resolve at h
  cases hf : firstDefined ctx.get_type_dependency d.types with
  | some r =>
    rw [hf] at h
    have hr : r = v := by simpa using h
    exact Or.inl (hr ▸ firstDefined_some_mem _ _ _ hf)
  | none =>
    rw [hf] at h
    cases hd : d.default with
    | value w =>
      rw [hd] at h
      have hw : w = v := by simpa using h
      subst hw
      exact Or.inr rfl
    | undefined => rw [hd] at h; exact absurd h (by simp)

/-- Claim C7 witness: the successful resolution of `descAB` against
`ctxBoth` is accounted for by a candidate's non-sentinel lookup or by a
non-sentinel default. -/
theorem resolve_no_sentinel_witness :
    descAB.resolve ctxBoth = Except.ok 10 ∧
    ((∃ t ∈ descAB.types, ctxBoth.get_type_dependency t = UndefinedOr.value 10) ∨
      descAB.default = UndefinedOr.value 10) :=
  ⟨rfl, resolve_no_sentinel descAB ctxBoth 10 rfl⟩

/-- Claim C8: resolving the same descriptor against two contexts with
identical type bindings yields identical results (same value or same
error).  The descriptor is never mutated by resolution: `resolve` is a pure
function of the descriptor and the context, mirroring the source's
`resolve`, which never assigns to `self`, so `default`, `repr_type` and
`types` are unchanged by any call. -/
theorem resolve_deterministic (d : InjectedType Ty V) (ctx₁ ctx₂ : Context Ctx Ty K V)
    (h : ctx₁.get_type_dependency = ctx₂.get_type_dependency) :
    d.resolve ctx₁ = d.resolve ctx₂ := by
  unfold InjectedType.resolve
  rw [h]

/-- A context with the same type bindings as `ctxBoth` but a different
client. -/
def ctxBothAlt : Context Unit Nat Unit Nat :=
  ⟨(), fun t => if t = 0 then UndefinedOr.value 10
    else if t = 1 then UndefinedOr.value 20 else UndefinedOr.undefined,
   ⟨fun _ _ => Except.error (AllukaError.asyncOnly "other client"), fun _ _ => Except.ok 99⟩⟩

/-- Claim C8 witness: `descAB` resolves identically against `ctxBoth` and
`ctxBothAlt`, two contexts with identical type bindings. -/
theorem resolve_deterministic_witness :
    descAB.resolve ctxBoth = descAB.resolve ctxBothAlt :=
  resolve_deterministic descAB ctxBoth ctxBothAlt rfl

/-- Claim C9: after every successful construction of an
`InjectedDescriptor`, the fields are exactly the supplied arguments and
exactly one of `callback` and `type` is populated, the other being `None`.
The descriptor is immutable after construction: the embedding is pure and
no operation of this core writes to either field, mirroring the source,
which only assigns them in `__init__`. -/
theorem descriptor_init_invariant (cb : Option K) (ty : Option Ty)
    (d : InjectedDescriptor K Ty) (h : InjectedDescriptor.init cb ty = Except.ok d) :
    d.callback = cb ∧ d.type = ty ∧
    (((∃ c, d.callback = some c) ∧ d.type = none) ∨
      (d.callback = none ∧ ∃ t, d.type = some t)) := by
  cases cb with
  | none =>
    cases ty with
    | none => exact absurd h (by simp [InjectedDescriptor.init])
    | some t =>
      have hd : d = ⟨none, some t⟩ := by
        simpa [InjectedDescriptor.init] using h.symm
      subst hd
      exact ⟨rfl, rfl, Or.inr ⟨rfl, t, rfl⟩⟩
  | some c =>
    cases ty with
    | none =>
      have hd : d = ⟨some c, none⟩ := by
        simpa [InjectedDescriptor.init] using h.symm
      subst hd
      exact ⟨rfl, rfl, Or.inl ⟨⟨c, rfl⟩, rfl⟩⟩
    | some t => exact absurd h (by simp [InjectedDescriptor.init])

/-- A callback-variant descriptor as constructed from `callback=7`. -/
def descCallbackOnly : InjectedDescriptor Nat Nat := ⟨some 7, none⟩

/-- Claim C9 witness: constructing with only `callback = 7` succeeds and the
resulting descriptor has `callback` populated and `type` equal to `None`. -/
theorem descriptor_init_invariant_witness :
    descCallbackOnly.callback = some 7 ∧ descCallbackOnly.type = (none : Option Nat) ∧
    (((∃ c, descCallbackOnly.callback = some c) ∧ descCallbackOnly.type = none) ∨
      (descCallbackOnly.callback = none ∧ ∃ t, descCallbackOnly.type = some t)) :=
  descriptor_init_invariant (some 7) (none : Option Nat) descCallbackOnly rfl

/-- Claim C10: `InjectedType.init` accepts an empty candidate sequence
without error (no length check exists), and resolving such a descriptor
consults no context lookup — the result is the same against every context —
returning the default when it is not the `UNDEFINED` sentinel and raising
the missing-dependency error otherwise. -/
theorem resolve_empty_types (r : String) (dflt : UndefinedOr V)
    (ctx ctx₂ : Context Ctx Ty K V) :
    (InjectedType.init r ([] : List Ty) dflt).types = [] ∧
    (InjectedType.init r ([] : List Ty) dflt).resolve ctx =
      (InjectedType.init r ([] : List Ty) dflt).resolve ctx₂ ∧
    (InjectedType.init r ([] : List Ty) dflt).resolve ctx =
      (match dflt with
       | UndefinedOr.value v => Except.ok v
       | UndefinedOr.undefined =>
         Except.error (AllukaError.missingDependency (missingMessage r) r)) := by
  refine ⟨rfl, ?_, ?_⟩ <;> cases dflt <;> rfl

end Alluka
